import Mathlib

/-!
Shallow embedding of the `jup_swap` Rust crate (files
`src/native/jup_swap/src/jup_ag.rs` and `src/native/jup_swap/src/lib.rs`)
and verification of its specification.

External crates (serde_json, base64, bs58, bincode, solana_sdk, reqwest,
helius) are modelled by abstract function parameters; everything written in
the repository itself is translated definitionally.  Pubkeys are represented
by their display strings, transactions by their decoded byte lists.
-/

namespace JupSwap

/-- Model of `serde_json::Value`. -/
inductive Json where
  | null : Json
  | bool (b : Bool) : Json
  | num (n : Int) : Json
  | str (s : String) : Json
  | arr (elems : List Json) : Json
  | obj (fields : List (String × Json)) : Json

/-- Model of `jup_ag::Error` (jup_ag.rs lines 20-39).  Inner error payloads of
the foreign crates are elided; the constructor identifies the kind. -/
inductive Error where
  | Reqwest : Error
  | ParsePubkey : Error
  | Base64Decode : Error
  | Bincode : Error
  | JupiterApi (msg : String) : Error
  | SerdeJson : Error
deriving DecidableEq

/-- Field lookup in a JSON object, as `serde_json`'s map lookup (no duplicate
keys in a `serde_json::Value` object). -/
def lookupField : List (String × Json) → String → Option Json
  | [], _ => none
  | (k, v) :: rest, key => if k = key then some v else lookupField rest key

/-- Deserialization of the local `ErrorResponse { error: String }` struct of
`maybe_jupiter_api_error` (jup_ag.rs lines 140-143): succeeds exactly on a
JSON object whose `error` field is a string (serde ignores unknown fields). -/
def errorResponseOf : Json → Option String
  | Json.obj fields =>
      match lookupField fields "error" with
      | some (Json.str s) => some s
      | _ => none
  | _ => none

/-- `maybe_jupiter_api_error` (jup_ag.rs lines 136-150): probe the body for
the error shape first; only if that fails, decode the expected structure
(`decodeT` stands for `serde_json::from_value::<T>`). -/
def maybe_jupiter_api_error (decodeT : Json → Option α) (value : Json) : Except Error α :=
  match errorResponseOf value with
  | some error => Except.error (Error.JupiterApi error)
  | none =>
      match decodeT value with
      | some v => Except.ok v
      | none => Except.error Error.SerdeJson

/-- `quote_url` (jup_ag.rs lines 194-216).  Pubkeys and the boolean are
rendered as in Rust's `format!`; the two slippage-dependent pieces mirror the
two `format!` arguments built from `slippage`. -/
def quote_url (input_mint output_mint : String) (amount : String)
    (only_direct_routes : Bool) (slippage : Option Nat) (swap_mode : String) : String :=
  "https://quote-api.jup.ag/v6/quote?inputMint=" ++ input_mint ++
  "&outputMint=" ++ output_mint ++
  "&amount=" ++ amount ++
  "&onlyDirectRoutes=" ++ (if only_direct_routes then "true" else "false") ++
  "&swapMode=" ++ swap_mode ++
  "&excludeDexes=Phoenix&restrictIntermediateTokens=true" ++
  (match slippage with
   | some s => "&slippageBps=" ++ Nat.repr s
   | none => "&autoSlippage=true&maxAutoSlippageBps=100") ++
  (match slippage with
   | some _ => ""
   | none => "&autoSlippageCollisionUsdValue=1000")

/-- The slippage-independent part of `quote_url`. -/
def quoteUrlBase (input_mint output_mint : String) (amount : String)
    (only_direct_routes : Bool) (swap_mode : String) : String :=
  "https://quote-api.jup.ag/v6/quote?inputMint=" ++ input_mint ++
  "&outputMint=" ++ output_mint ++
  "&amount=" ++ amount ++
  "&onlyDirectRoutes=" ++ (if only_direct_routes then "true" else "false") ++
  "&swapMode=" ++ swap_mode ++
  "&excludeDexes=Phoenix&restrictIntermediateTokens=true"

/-- Substring containment on strings, via list infixes. -/
def strContains (hay pat : String) : Prop :=
  pat.data <:+: hay.data

instance (hay pat : String) : Decidable (strContains hay pat) := by
  unfold strContains; exact List.decidableInfix _ _

theorem digitChar_isDigit (d : Nat) (h : d < 10) : (Nat.digitChar d).isDigit = true := by
  interval_cases d <;> decide

theorem toDigitsCore_digits (fuel : Nat) : ∀ (n : Nat) (acc : List Char),
    (∀ c ∈ acc, c.isDigit = true) → ∀ c ∈ Nat.toDigitsCore 10 fuel n acc, c.isDigit = true := by
  induction fuel with
  | zero =>
      intro n acc hacc c hc
      simp only [Nat.toDigitsCore] at hc
      exact hacc c hc
  | succ fuel ih =>
      intro n acc hacc c hc
      simp only [Nat.toDigitsCore] at hc
      by_cases h10 : n / 10 = 0
      · rw [if_pos h10] at hc
        rcases List.mem_cons.mp hc with h1 | h2
        · subst h1; exact digitChar_isDigit _ (Nat.mod_lt _ (by norm_num))
        · exact hacc c h2
      · rw [if_neg h10] at hc
        refine ih (n / 10) _ ?_ c hc
        intro c' hc'
        rcases List.mem_cons.mp hc' with h1 | h2
        · subst h1; exact digitChar_isDigit _ (Nat.mod_lt _ (by norm_num))
        · exact hacc c' h2

theorem repr_digits (s : Nat) : ∀ c ∈ (Nat.repr s).data, c.isDigit = true := by
  intro c hc
  have h : c ∈ Nat.toDigitsCore 10 (s + 1) s [] := by
    simpa [Nat.repr, Nat.toDigits, List.asString] using hc
  exact toDigitsCore_digits (s + 1) s [] (by simp) c h

/-- Model of `SwapInfo` (jup_ag.rs lines 101-116); pubkeys as display strings. -/
structure SwapInfo where
  amm_key : String
  label : String
  input_mint : String
  output_mint : String
  in_amount : String
  out_amount : String
  fee_amount : String
  fee_mint : String
deriving DecidableEq

/-- Model of `RoutePlan` (jup_ag.rs lines 94-99). -/
structure RoutePlan where
  swap_info : SwapInfo
  percent : Nat
deriving DecidableEq

/-- Model of `Quote` (jup_ag.rs lines 61-75). -/
structure Quote where
  in_amount : String
  out_amount : String
  input_mint : String
  output_mint : String
  slippage_bps : Nat
  price_impact_pct : String
  route_plan : List RoutePlan
  other_amount_threshold : String
  swap_mode : String
deriving DecidableEq

/-- Display string of `Pubkey::default()` (32 zero bytes in base58). -/
def defaultPubkey : String := "11111111111111111111111111111111"

/-- `Quote::default()` (the `Default` derive on `Quote`). -/
def defaultQuote : Quote :=
  { in_amount := "", out_amount := "", input_mint := defaultPubkey,
    output_mint := defaultPubkey, slippage_bps := 0, price_impact_pct := "",
    route_plan := [], other_amount_threshold := "", swap_mode := "" }

/-- Model of `SwapConfig` (jup_ag.rs lines 218-223). -/
structure SwapConfig where
  wrap_and_unwrap_sol : Option Bool
  fee_account : Option String
  token_ledger : Option String
deriving DecidableEq

/-- Model of `SwapRequest` (jup_ag.rs lines 234-247): the only fields that
exist on the outbound request body. -/
structure SwapRequest where
  user_public_key : String
  wrap_and_unwrap_sol : Option Bool
  dynamic_compute_unit_limit : Bool
  dynamic_slippage : Bool
  quote_response : Quote
deriving DecidableEq

/-- Construction of the `SwapRequest` value in `swap_with_config` /
`swap_with_instructions` (jup_ag.rs lines 331-338 and 377-384). -/
def mkSwapRequest (quote_response : Quote) (user_public_key : String)
    (swap_config : SwapConfig) : SwapRequest :=
  { user_public_key := user_public_key,
    wrap_and_unwrap_sol := swap_config.wrap_and_unwrap_sol,
    dynamic_compute_unit_limit := true,
    dynamic_slippage := true,
    quote_response := quote_response }

/-- Serde serialization of `SwapInfo` (camelCase, `field_as_string` pubkeys). -/
def jsonOfSwapInfo (si : SwapInfo) : Json :=
  Json.obj [("ammKey", Json.str si.amm_key), ("label", Json.str si.label),
    ("inputMint", Json.str si.input_mint), ("outputMint", Json.str si.output_mint),
    ("inAmount", Json.str si.in_amount), ("outAmount", Json.str si.out_amount),
    ("feeAmount", Json.str si.fee_amount), ("feeMint", Json.str si.fee_mint)]

/-- Serde serialization of `RoutePlan`. -/
def jsonOfRoutePlan (rp : RoutePlan) : Json :=
  Json.obj [("swapInfo", jsonOfSwapInfo rp.swap_info), ("percent", Json.num rp.percent)]

/-- Serde serialization of `Quote` (field order = declaration order). -/
def jsonOfQuote (q : Quote) : Json :=
  Json.obj [("inAmount", Json.str q.in_amount), ("outAmount", Json.str q.out_amount),
    ("inputMint", Json.str q.input_mint), ("outputMint", Json.str q.output_mint),
    ("slippageBps", Json.num q.slippage_bps),
    ("priceImpactPct", Json.str q.price_impact_pct),
    ("routePlan", Json.arr (q.route_plan.map jsonOfRoutePlan)),
    ("otherAmountThreshold", Json.str q.other_amount_threshold),
    ("swapMode", Json.str q.swap_mode)]

/-- Serde serialization of an `Option<bool>` field (None serializes as null). -/
def jsonOfOptionBool : Option Bool → Json
  | none => Json.null
  | some b => Json.bool b

/-- Serde serialization of the outbound `SwapRequest` body. -/
def serializeSwapRequest (r : SwapRequest) : Json :=
  Json.obj [("userPublicKey", Json.str r.user_public_key),
    ("wrapAndUnwrapSol", jsonOfOptionBool r.wrap_and_unwrap_sol),
    ("dynamicComputeUnitLimit", Json.bool r.dynamic_compute_unit_limit),
    ("dynamicSlippage", Json.bool r.dynamic_slippage),
    ("quoteResponse", jsonOfQuote r.quote_response)]

/-- Decoded `VersionedTransaction`, abstracted to its byte content. -/
abbrev Tx := List Nat

/-- Model of `Swap` (jup_ag.rs lines 128-133). -/
structure Swap where
  setup : Option Tx
  swap : Tx
  cleanup : Option Tx
deriving DecidableEq

/-- Model of `SwapResponse` (jup_ag.rs lines 249-255). -/
structure SwapResponse where
  setup_transaction : Option String
  swap_transaction : String
  cleanup_transaction : Option String
deriving DecidableEq

/-- `decode` (jup_ag.rs lines 405-407): base64-decode, then bincode-decode;
`b64dec` and `bincodeDe` model the two external decoders. -/
def decodeTx (b64dec : String → Option (List Nat)) (bincodeDe : List Nat → Option Tx)
    (base64_transaction : String) : Except Error Tx :=
  match b64dec base64_transaction with
  | none => Except.error Error.Base64Decode
  | some bytes =>
      match bincodeDe bytes with
      | none => Except.error Error.Bincode
      | some tx => Except.ok tx

/-- The bundle-building tail of `swap_with_config` (jup_ag.rs lines 345-361):
the optional slots are decoded with `.ok()` (failures discarded to `None`),
the mandatory slot with `?`. -/
def buildSwapBundle (b64dec : String → Option (List Nat))
    (bincodeDe : List Nat → Option Tx) (swap_response : SwapResponse) :
    Except Error Swap :=
  let setup := match swap_response.setup_transaction with
    | some base64_setup => (decodeTx b64dec bincodeDe base64_setup).toOption
    | none => none
  let cleanup := match swap_response.cleanup_transaction with
    | some base64_cleanup => (decodeTx b64dec bincodeDe base64_cleanup).toOption
    | none => none
  match decodeTx b64dec bincodeDe swap_response.swap_transaction with
  | Except.error e => Except.error e
  | Except.ok sw => Except.ok { setup := setup, swap := sw, cleanup := cleanup }

/-- Model of `JupiterAccount` (jup_ag.rs lines 287-293). -/
structure JupiterAccount where
  pubkey : String
  is_signer : Bool
  is_writable : Bool
deriving DecidableEq

/-- Model of `JupiterInstruction` (jup_ag.rs lines 279-285). -/
structure JupiterInstruction where
  program_id : String
  accounts : List JupiterAccount
  data : String
deriving DecidableEq

/-- Model of `solana_sdk::instruction::AccountMeta`. -/
structure AccountMeta where
  pubkey : String
  is_signer : Bool
  is_writable : Bool
deriving DecidableEq

/-- Model of `solana_sdk::instruction::Instruction`. -/
structure Instruction where
  program_id : String
  accounts : List AccountMeta
  data : List Nat
deriving DecidableEq

/-- Early-return collection of fallible results, as Rust's
`collect::<Result<Vec<_>>>()` and the `for` loops pushing with `?`. -/
def mapExcept (f : α → Except ε β) : List α → Except ε (List β)
  | [] => Except.ok []
  | a :: rest =>
      match f a with
      | Except.error e => Except.error e
      | Except.ok b =>
          match mapExcept f rest with
          | Except.error e => Except.error e
          | Except.ok bs => Except.ok (b :: bs)

/-- The per-account closure of `into_instruction` (jup_ag.rs lines 302-310):
parse the address, keep the signer and writable flags verbatim. -/
def convAccount (parsePk : String → Option String) (acc : JupiterAccount) :
    Except Error AccountMeta :=
  match parsePk acc.pubkey with
  | none => Except.error Error.ParsePubkey
  | some pk => Except.ok (AccountMeta.mk pk acc.is_signer acc.is_writable)

/-- `JupiterInstruction::into_instruction` (jup_ag.rs lines 295-316):
program address parsed first, then every account address in order, then the
base64 payload; `parsePk` models `Pubkey::from_str`. -/
def into_instruction (parsePk : String → Option String)
    (b64dec : String → Option (List Nat)) (self : JupiterInstruction) :
    Except Error Instruction :=
  match parsePk self.program_id with
  | none => Except.error Error.ParsePubkey
  | some pid =>
      match mapExcept (convAccount parsePk) self.accounts with
      | Except.error e => Except.error e
      | Except.ok accounts =>
          match b64dec self.data with
          | none => Except.error Error.Base64Decode
          | some data =>
              Except.ok { program_id := pid, accounts := accounts, data := data }

/-- Model of `ComputeBudget` (jup_ag.rs lines 422-427). -/
structure ComputeBudget where
  estimated_micro_lamports : Nat
  micro_lamports : Nat

/-- Model of `PrioritizationType` (jup_ag.rs lines 416-420). -/
structure PrioritizationType where
  compute_budget : ComputeBudget

/-- Model of `SwapInstructions` (jup_ag.rs lines 257-277). -/
structure SwapInstructions where
  token_ledger_instruction : Option JupiterInstruction
  compute_budget_instructions : List JupiterInstruction
  setup_instructions : List JupiterInstruction
  swap_instruction : JupiterInstruction
  cleanup_instruction : Option JupiterInstruction
  address_lookup_table_addresses : List String
  compute_unit_limit : Nat
  dynamic_slippage_report : Option Json
  other_instructions : List JupiterInstruction
  prioritization_fee_lamports : Nat
  prioritization_type : PrioritizationType
  simulation_error : Option String
  simulation_slot : Option Nat
  program_id : String
  data : String

/-- The `Display` text of `jup_ag::Error` (the `thiserror` attributes,
jup_ag.rs lines 20-39), with the foreign inner messages elided. -/
def errorMessage : Error → String
  | Error.Reqwest => "reqwest"
  | Error.ParsePubkey => "invalid pubkey in response data"
  | Error.Base64Decode => "base64"
  | Error.Bincode => "bincode"
  | Error.JupiterApi msg => "Jupiter API: " ++ msg
  | Error.SerdeJson => "serde_json"

/-- Instruction-list assembly in `do_quick_swap` (lib.rs lines 159-179): the
vector starts empty ("without compute budget instruction"), then the setup
instructions are pushed in order, then the swap instruction, then the cleanup
instruction when present; each conversion error is formatted to a string. -/
def assembleInstructions (parsePk : String → Option String)
    (b64dec : String → Option (List Nat)) (resp : SwapInstructions) :
    Except String (List Instruction) :=
  match mapExcept (fun si =>
      match into_instruction parsePk b64dec si with
      | Except.error e =>
          Except.error ("Failed to parse setup instruction: " ++ errorMessage e)
      | Except.ok i => Except.ok i) resp.setup_instructions with
  | Except.error msg => Except.error msg
  | Except.ok setup =>
      match into_instruction parsePk b64dec resp.swap_instruction with
      | Except.error e =>
          Except.error ("Failed to parse swap instruction: " ++ errorMessage e)
      | Except.ok swapI =>
          match resp.cleanup_instruction with
          | some cleanup_instruction =>
              match into_instruction parsePk b64dec cleanup_instruction with
              | Except.error e =>
                  Except.error ("Failed to parse cleanup instruction: " ++ errorMessage e)
              | Except.ok cleanupI => Except.ok (setup ++ [swapI] ++ [cleanupI])
          | none => Except.ok (setup ++ [swapI])

/-- Quote combination in `do_quick_swap` (lib.rs lines 95-117): a failed
quote fetch is replaced by `Quote::default()`, the route plan is moved into a
fresh vector, and the swap mode is overwritten from configuration. -/
def combinedQuote (from_result : Except Error Quote) (swap_mode : String) : Quote :=
  let from_quote := match from_result with
    | Except.ok r => r
    | Except.error _ => defaultQuote
  let combined_route_plans := from_quote.route_plan
  { input_mint := from_quote.input_mint, output_mint := from_quote.output_mint,
    in_amount := from_quote.in_amount, out_amount := from_quote.out_amount,
    route_plan := combined_route_plans, slippage_bps := from_quote.slippage_bps,
    price_impact_pct := from_quote.price_impact_pct,
    other_amount_threshold := from_quote.other_amount_threshold,
    swap_mode := swap_mode }

/-- The swap request the pipeline sends: `do_quick_swap` passes the combined
quote unconditionally to `swap_with_instructions` (lib.rs lines 155-157),
which builds the request body (jup_ag.rs lines 377-384). -/
def pipelineSwapRequest (from_result : Except Error Quote) (swap_mode : String)
    (user_public_key : String) (swap_config : SwapConfig) : SwapRequest :=
  mkSwapRequest (combinedQuote from_result swap_mode) user_public_key swap_config

/-- The three fatal key-resolution failures in `do_quick_swap`
(lib.rs lines 125-140), identified by the message prefix each is given. -/
inductive KeyError where
  | JsonParse : KeyError
  | Base58 : KeyError
  | InvalidKey : KeyError
deriving DecidableEq

/-- The error-string prefixes of lib.rs lines 130, 135, 139. -/
def keyErrorMessage : KeyError → String
  | KeyError.JsonParse => "Failed to parse JSON private key"
  | KeyError.Base58 => "Failed to decode base58 private key"
  | KeyError.InvalidKey => "Invalid private key"

/-- Model of `solana_sdk::signature::Keypair`, abstracted to its bytes. -/
structure Keypair where
  bytes : List Nat
deriving DecidableEq

/-- A resolved signing key; `ephemeral` records that the warning-printing
`Keypair::new()` fallback path was taken. -/
structure ResolvedKey where
  keypair : Keypair
  ephemeral : Bool
deriving DecidableEq

/-- Rust's `str::starts_with('[')` (a character pattern). -/
def startsWithBracket (s : String) : Bool :=
  match s.data with
  | c :: _ => c == Char.ofNat 91
  | [] => false

/-- Key resolution in `do_quick_swap` (lib.rs lines 125-153): with a
configured value, a JSON byte-array parse when it starts with a bracket,
otherwise a base58 decode of the trimmed value, then `Keypair::from_bytes`;
each failure is fatal.  With no configured value, warn and use a fresh
ephemeral keypair.  `jsonParseBytes`, `base58decode` and `keypairFromBytes`
model `serde_json::from_str::<Vec<u8>>`, `bs58::decode` and
`Keypair::from_bytes`; `freshKeypair` models `Keypair::new()`. -/
def resolveKeypair (jsonParseBytes : String → Option (List Nat))
    (base58decode : String → Option (List Nat))
    (keypairFromBytes : List Nat → Option Keypair)
    (freshKeypair : Keypair) (configured : Option String) :
    Except KeyError ResolvedKey :=
  match configured with
  | some key_string =>
      let key_bytes_result : Except KeyError (List Nat) :=
        if startsWithBracket key_string then
          match jsonParseBytes key_string with
          | none => Except.error KeyError.JsonParse
          | some bs => Except.ok bs
        else
          match base58decode key_string.trim with
          | none => Except.error KeyError.Base58
          | some bs => Except.ok bs
      match key_bytes_result with
      | Except.error e => Except.error e
      | Except.ok key_bytes =>
          match keypairFromBytes key_bytes with
          | none => Except.error KeyError.InvalidKey
          | some kp => Except.ok { keypair := kp, ephemeral := false }
  | none => Except.ok { keypair := freshKeypair, ephemeral := true }

/-- Outcome of the NIF entry point: a returned `Ok(String)`, a returned
`Err(String)`, or an aborted process (a Rust `unwrap()`/`expect()` panic). -/
inductive Outcome (α : Type) where
  | ok (a : α) : Outcome α
  | err (msg : String) : Outcome α
  | panic : Outcome α
deriving DecidableEq

/-- The external functions `do_quick_swap` depends on, each modelling one
foreign-crate call. -/
structure ExternalFns where
  decodeQuote : Json → Option Quote
  jsonParseBytes : String → Option (List Nat)
  base58decode : String → Option (List Nat)
  keypairFromBytes : List Nat → Option Keypair
  freshKeypair : Keypair
  pubkeyOf : Keypair → String
  parsePk : String → Option String
  b64dec : String → Option (List Nat)

/-- The ambient state one `do_quick_swap` invocation observes: environment
variables and the results of its network calls.  `quoteHttpJson = none`
models a transport or body-parse failure of the quote request (lib.rs lines
95-96, both `unwrap()`).  `swapInstructionsResult` is the value of
`jup_ag::swap_with_instructions` (that function converts its own transport
and JSON failures into `jup_ag::Error` with `?`, jup_ag.rs lines 386-397).
`clientBuildOk` and `heliusNewOk` model the `unwrap()`s on
`reqwest::Client::builder().build()` (lib.rs line 69) and `Helius::new`
(lib.rs line 184). -/
structure PipelineEnv where
  clientBuildOk : Bool
  slippageVar : Option String
  onlyDirectRoutesVar : Option String
  swapModeVar : Option String
  wrapVar : Option String
  quoteHttpJson : Option Json
  keyVar : Option String
  swapInstructionsResult : Except Error SwapInstructions
  heliusApiKey : Option String
  heliusNewOk : Bool
  skipPreflightVar : Option String
  maxRetriesVar : Option String
  timeoutVar : Option String
  sendResult : Except String String

/-- Rust's `str::parse::<bool>` (exactly "true" or "false"). -/
def parseBoolStr (s : String) : Option Bool :=
  if s = "true" then some true else if s = "false" then some false else none

/-- Rust's `str::parse::<u64>`: an optional leading plus sign (43), then a
non-empty run of decimal digits, with the value bounded by `u64::MAX`
(overflow is a parse error). -/
def parseNatStr (s : String) : Option Nat :=
  let t := match s.data with
    | c :: rest => if c == Char.ofNat 43 then rest else s.data
    | [] => s.data
  if !t.isEmpty && t.all Char.isDigit then
    let n := t.foldl (fun acc c => acc * 10 + (c.toNat - 48)) 0
    if n < 18446744073709551616 then some n else none
  else none

/-- Whether building the `SmartTransactionConfig` panics (lib.rs lines
195-216): each of the three transaction env vars is parsed with `unwrap()`
when present. -/
def configPanics (env : PipelineEnv) : Bool :=
  (match env.skipPreflightVar with
   | some s => (parseBoolStr s).isNone
   | none => false) ||
  (match env.maxRetriesVar with
   | some s => (parseNatStr s).isNone
   | none => false) ||
  (match env.timeoutVar with
   | some s => (parseNatStr s).isNone
   | none => false)

/-- `do_quick_swap` (lib.rs lines 67-233), with network and foreign calls
drawn from `env` and `ext`.  The quote URL is built by `quote_url` exactly as
in the source; the HTTP exchange it names is abstracted to the returned body
`env.quoteHttpJson`. -/
def do_quick_swap (ext : ExternalFns) (env : PipelineEnv)
    (token_from token_to : String) (amount : Nat) : Outcome String :=
  if !env.clientBuildOk then Outcome.panic
  else
    let slippage_bps := env.slippageVar.bind parseNatStr
    let only_direct_routes := (env.onlyDirectRoutesVar.bind parseBoolStr).getD true
    let swap_mode := env.swapModeVar.getD "ExactIn"
    let wrap_and_unwrap_sol := (env.wrapVar.bind parseBoolStr).getD false
    let _from_url := quote_url token_from token_to (Nat.repr amount)
        only_direct_routes slippage_bps swap_mode
    match env.quoteHttpJson with
    | none => Outcome.panic
    | some from_json =>
        let from_result : Except Error Quote :=
          maybe_jupiter_api_error ext.decodeQuote from_json
        let combined_quote := combinedQuote from_result swap_mode
        let swap_config : SwapConfig :=
          { wrap_and_unwrap_sol := some wrap_and_unwrap_sol,
            fee_account := none, token_ledger := none }
        match resolveKeypair ext.jsonParseBytes ext.base58decode
            ext.keypairFromBytes ext.freshKeypair env.keyVar with
        | Except.error e => Outcome.err (keyErrorMessage e)
        | Except.ok keypair =>
            let _request := mkSwapRequest combined_quote
              (ext.pubkeyOf keypair.keypair) swap_config
            match env.swapInstructionsResult with
            | Except.error e =>
                Outcome.err ("Failed to get swap instructions: " ++ errorMessage e)
            | Except.ok swap_response =>
                match assembleInstructions ext.parsePk ext.b64dec swap_response with
                | Except.error msg => Outcome.err msg
                | Except.ok _instructions =>
                    match env.heliusApiKey with
                    | none => Outcome.err "HELIUS_API_KEY environment variable not set"
                    | some _ =>
                        if !env.heliusNewOk then Outcome.panic
                        else if configPanics env then Outcome.panic
                        else
                          match env.sendResult with
                          | Except.ok signature => Outcome.ok signature
                          | Except.error e => Outcome.err e

/-- `quick_swap` (lib.rs lines 59-65): both mint strings go through
`Pubkey::try_from(...).unwrap()` (`token_from` first), then `do_quick_swap`
is called. -/
def quick_swap (ext : ExternalFns) (env : PipelineEnv)
    (token_to token_from : String) (amount : Nat) : Outcome String :=
  match ext.parsePk token_from with
  | none => Outcome.panic
  | some token_from_pubkey =>
      match ext.parsePk token_to with
      | none => Outcome.panic
      | some token_to_pubkey =>
          do_quick_swap ext env token_from_pubkey token_to_pubkey amount

/-- Events for the submission path. -/
inductive SubmissionEvent where
  | simulate : SubmissionEvent
  | submit : SubmissionEvent
deriving DecidableEq

/-- Terminal states of the spec's SubmissionController state machine. -/
inductive SubmissionState where
  | Submitted (signature : String) : SubmissionState
  | Rejected (msg : String) : SubmissionState
deriving DecidableEq

/-- Modelled from the spec: the simulate-then-send path of
SubmissionController (spec section 4.6).  Under `src/` the pipeline only
delegates submission to the external managed helper
(`helius_client.send_smart_transaction`, lib.rs lines 220-231); the
simulate-then-send revision of the submission controller is not among the
provided sources.  Per the spec, the signed transaction is simulated first;
a non-null simulation error transitions directly to Rejected and the real
submission call is never made; otherwise submission runs and yields a
signature or a terminal error.  The returned event list is the sequence of
external calls made. -/
def runSubmission (simulateTx : Tx → Option String)
    (sendTx : Tx → Except String String) (tx : Tx) :
    SubmissionState × List SubmissionEvent :=
  match simulateTx tx with
  | some err => (SubmissionState.Rejected err, [SubmissionEvent.simulate])
  | none =>
      match sendTx tx with
      | Except.ok signature =>
          (SubmissionState.Submitted signature,
           [SubmissionEvent.simulate, SubmissionEvent.submit])
      | Except.error e =>
          (SubmissionState.Rejected e,
           [SubmissionEvent.simulate, SubmissionEvent.submit])

/-- A concrete stand-in for base58 pubkey parsing, used to instantiate the
abstract foreign-function parameters at concrete inputs: accepts exactly the
non-empty alphanumeric strings. -/
def pkModel (s : String) : Option String :=
  if !s.data.isEmpty && s.data.all Char.isAlphanum then some s else none

/-- A concrete stand-in for base64 decoding: accepts strings over the base64
alphabet (alphanumerics, 43 `+`, 47 `/`, 61 `=`), yielding their code
points. -/
def b64Model (s : String) : Option (List Nat) :=
  if s.data.all (fun c =>
      c.isAlphanum || c == Char.ofNat 43 || c == Char.ofNat 47 || c == Char.ofNat 61)
  then some (s.data.map Char.toNat)
  else none

/-- A concrete stand-in for bincode transaction decoding: every byte list
decodes. -/
def bincModel (bytes : List Nat) : Option Tx := some bytes

/-- A concrete swap-instructions response for evaluating assembly at a
concrete input: one compute-budget instruction, one setup instruction, one
swap instruction, no cleanup. -/
def respWithComputeBudget : SwapInstructions :=
  { token_ledger_instruction := none,
    compute_budget_instructions := [JupiterInstruction.mk "Budget111" [] "AAAA"],
    setup_instructions := [JupiterInstruction.mk "Setup1111" [] "BBBB"],
    swap_instruction := JupiterInstruction.mk "Swap11111" [] "CCCC",
    cleanup_instruction := none,
    address_lookup_table_addresses := [],
    compute_unit_limit := 0,
    dynamic_slippage_report := none,
    other_instructions := [],
    prioritization_fee_lamports := 0,
    prioritization_type := PrioritizationType.mk (ComputeBudget.mk 0 0),
    simulation_error := none,
    simulation_slot := none,
    program_id := "",
    data := "" }

/-- Concrete external functions for evaluating the pipeline at concrete
inputs. -/
def extModel : ExternalFns :=
  { decodeQuote := fun _ => none,
    jsonParseBytes := fun _ => none,
    base58decode := fun _ => none,
    keypairFromBytes := fun _ => none,
    freshKeypair := Keypair.mk [7],
    pubkeyOf := fun _ => "EphemeralPk",
    parsePk := pkModel,
    b64dec := b64Model }

/-- A benign concrete pipeline environment: the quote fetch returns an API
error body, no key is configured, the swap instructions arrive, helius is
configured, and submission succeeds. -/
def envModel : PipelineEnv :=
  { clientBuildOk := true,
    slippageVar := none,
    onlyDirectRoutesVar := none,
    swapModeVar := none,
    wrapVar := none,
    quoteHttpJson := some (Json.obj [("error", Json.str "no route")]),
    keyVar := none,
    swapInstructionsResult := Except.ok respWithComputeBudget,
    heliusApiKey := some "key",
    heliusNewOk := true,
    skipPreflightVar := none,
    maxRetriesVar := none,
    timeoutVar := none,
    sendResult := Except.ok "SIGNATURE" }

/-- C3: a JSON response body containing an `error` string field decodes to a
`JupiterApi` error carrying exactly that message, never a generic parse
failure; the error shape is probed before the expected structure, and the
expected structure is decoded only when the error shape does not match. -/
theorem maybe_jupiter_api_error_probes_error_first {α : Type}
    (decodeT : Json → Option α) (j : Json) :
    (∀ msg, errorResponseOf j = some msg →
      maybe_jupiter_api_error decodeT j = Except.error (Error.JupiterApi msg)) ∧
    (errorResponseOf j = none →
      maybe_jupiter_api_error decodeT j =
        match decodeT j with
        | some v => Except.ok v
        | none => Except.error Error.SerdeJson) := by
  constructor
  · intro msg h
    simp [maybe_jupiter_api_error, h]
  · intro h
    unfold maybe_jupiter_api_error
    rw [h]
    exact rfl

theorem maybe_jupiter_api_error_probes_error_first_witness :
    errorResponseOf (Json.obj [("error", Json.str "insufficient liquidity")]) =
      some "insufficient liquidity" ∧
    maybe_jupiter_api_error (fun _ => (none : Option Quote))
        (Json.obj [("error", Json.str "insufficient liquidity")]) =
      Except.error (Error.JupiterApi "insufficient liquidity") := by
  refine ⟨rfl, ?_⟩
  exact (maybe_jupiter_api_error_probes_error_first (fun _ => (none : Option Quote))
    (Json.obj [("error", Json.str "insufficient liquidity")])).1 _ rfl

set_option maxRecDepth 16384 in
/-- C7: `quote_url` is a pure deterministic string construction with query
parameters in a fixed order; with absent slippage the URL carries the
auto-slippage parameters with the maximum cap and no explicit
`&slippageBps=` value, and with present slippage it carries the explicit
`&slippageBps=` value and its slippage-determined portion carries no
auto-slippage parameter. -/
theorem quote_url_deterministic_slippage_switch (im om amt : String)
    (odr : Bool) (mode : String) (s : Nat) :
    (∀ sl : Option Nat,
      quote_url im om amt odr sl mode = quote_url im om amt odr sl mode) ∧
    quote_url im om amt odr none mode =
      quoteUrlBase im om amt odr mode ++ "&autoSlippage=true&maxAutoSlippageBps=100" ++
        "&autoSlippageCollisionUsdValue=1000" ∧
    strContains (quote_url im om amt odr none mode)
      "&autoSlippage=true&maxAutoSlippageBps=100" ∧
    ¬ strContains ("&autoSlippage=true&maxAutoSlippageBps=100" ++
        "&autoSlippageCollisionUsdValue=1000") "&slippageBps=" ∧
    quote_url im om amt odr (some s) mode =
      quoteUrlBase im om amt odr mode ++ ("&slippageBps=" ++ Nat.repr s) ++ "" ∧
    strContains (quote_url im om amt odr (some s) mode)
      ("&slippageBps=" ++ Nat.repr s) ∧
    ¬ strContains ("&slippageBps=" ++ Nat.repr s) "autoSlippage" := by
  refine ⟨fun _ => rfl, rfl, ?_, by decide, rfl, ?_, ?_⟩
  · show _ <:+: (quoteUrlBase im om amt odr mode ++
      "&autoSlippage=true&maxAutoSlippageBps=100" ++
      "&autoSlippageCollisionUsdValue=1000").data
    exact ⟨(quoteUrlBase im om amt odr mode).data,
      "&autoSlippageCollisionUsdValue=1000".data, by simp⟩
  · show _ <:+: (quoteUrlBase im om amt odr mode ++
      ("&slippageBps=" ++ Nat.repr s) ++ "").data
    exact ⟨(quoteUrlBase im om amt odr mode).data, [], by simp⟩
  · intro h
    have hu : (Char.ofNat 117) ∈ ("&slippageBps=" ++ Nat.repr s).data :=
      h.subset (by decide)
    rw [String.data_append] at hu
    rcases List.mem_append.mp hu with h1 | h1
    · exact absurd h1 (by decide)
    · have hd := repr_digits s _ h1
      exact absurd hd (by decide)

theorem quote_url_deterministic_slippage_switch_witness :
    quote_url "Mint1" "Mint2" "1000" true none "ExactIn" =
      quoteUrlBase "Mint1" "Mint2" "1000" true "ExactIn" ++
        "&autoSlippage=true&maxAutoSlippageBps=100" ++
        "&autoSlippageCollisionUsdValue=1000" ∧
    ¬ strContains ("&slippageBps=" ++ Nat.repr 50) "autoSlippage" := by
  exact ⟨(quote_url_deterministic_slippage_switch "Mint1" "Mint2" "1000" true
      "ExactIn" 50).2.1,
    (quote_url_deterministic_slippage_switch "Mint1" "Mint2" "1000" true
      "ExactIn" 50).2.2.2.2.2.2⟩

/-- C10: the outbound swap request body depends only on the quote, the user
public key and the `wrap_and_unwrap_sol` configuration field; two configs
agreeing on `wrap_and_unwrap_sol` but differing in `fee_account` or
`token_ledger` yield identical request values and identical serialized
bodies. -/
theorem swap_request_ignores_fee_account_and_token_ledger (q : Quote)
    (pk : String) (c1 c2 : SwapConfig)
    (h : c1.wrap_and_unwrap_sol = c2.wrap_and_unwrap_sol) :
    mkSwapRequest q pk c1 = mkSwapRequest q pk c2 ∧
    serializeSwapRequest (mkSwapRequest q pk c1) =
      serializeSwapRequest (mkSwapRequest q pk c2) := by
  have he : mkSwapRequest q pk c1 = mkSwapRequest q pk c2 := by
    simp [mkSwapRequest, h]
  exact ⟨he, by rw [he]⟩

theorem swap_request_ignores_fee_account_and_token_ledger_witness :
    (SwapConfig.mk (some true) (some "FeeAcct") none).wrap_and_unwrap_sol =
      (SwapConfig.mk (some true) none (some "LedgerAcct")).wrap_and_unwrap_sol ∧
    serializeSwapRequest (mkSwapRequest defaultQuote "UserPk"
        (SwapConfig.mk (some true) (some "FeeAcct") none)) =
      serializeSwapRequest (mkSwapRequest defaultQuote "UserPk"
        (SwapConfig.mk (some true) none (some "LedgerAcct"))) := by
  exact ⟨rfl, (swap_request_ignores_fee_account_and_token_ledger defaultQuote
    "UserPk" (SwapConfig.mk (some true) (some "FeeAcct") none)
    (SwapConfig.mk (some true) none (some "LedgerAcct")) rfl).2⟩

/-- C1 counterexample: a present-but-malformed setup blob (rejected by the
base64 decoder) does not fail the operation — the bundle is built
successfully with the setup slot silently absent, contradicting the claim
that a malformed optional blob always yields a decode error for the whole
operation. -/
theorem swap_bundle_malformed_setup_not_error :
    b64Model "not-valid-base64!" = none ∧
    buildSwapBundle b64Model bincModel
        (SwapResponse.mk (some "not-valid-base64!") "AAA" none) =
      Except.ok (Swap.mk none [65, 65, 65] none) := by
  exact ⟨rfl, rfl⟩

/-- C1 (amended): an absent optional transaction yields a bundle with that
slot absent, not an error; a present-but-malformed optional blob also yields
a silently absent slot (its decode failure is discarded by `.ok()`); only a
malformed mandatory swap blob fails the whole operation with the decode
error. -/
theorem swap_bundle_optional_slots (b64dec : String → Option (List Nat))
    (bincodeDe : List Nat → Option Tx) (resp : SwapResponse) :
    (∀ e, decodeTx b64dec bincodeDe resp.swap_transaction = Except.error e →
      buildSwapBundle b64dec bincodeDe resp = Except.error e) ∧
    (∀ sw, decodeTx b64dec bincodeDe resp.swap_transaction = Except.ok sw →
      ∃ r, buildSwapBundle b64dec bincodeDe resp = Except.ok r ∧ r.swap = sw ∧
        (resp.setup_transaction = none → r.setup = none) ∧
        (∀ b e, resp.setup_transaction = some b →
          decodeTx b64dec bincodeDe b = Except.error e → r.setup = none) ∧
        (resp.cleanup_transaction = none → r.cleanup = none) ∧
        (∀ b e, resp.cleanup_transaction = some b →
          decodeTx b64dec bincodeDe b = Except.error e → r.cleanup = none)) := by
  constructor
  · intro e he
    simp only [buildSwapBundle]
    rw [he]
  · intro sw hsw
    simp only [buildSwapBundle]
    rw [hsw]
    refine ⟨_, rfl, rfl, ?_, ?_, ?_, ?_⟩
    · intro h
      simp [h]
    · intro b e hb hde
      simp [hb, hde, Except.toOption]
    · intro h
      simp [h]
    · intro b e hb hde
      simp [hb, hde, Except.toOption]

theorem swap_bundle_optional_slots_witness :
    (∃ r, buildSwapBundle b64Model bincModel
        (SwapResponse.mk (some "bad setup!") "AAA" none) = Except.ok r ∧
        r.setup = none) ∧
    buildSwapBundle b64Model bincModel (SwapResponse.mk none "bad swap!" none) =
      Except.error Error.Base64Decode := by
  constructor
  · obtain ⟨r, hr, _, _, hmal, _, _⟩ :=
      (swap_bundle_optional_slots b64Model bincModel
        (SwapResponse.mk (some "bad setup!") "AAA" none)).2 [65, 65, 65] rfl
    exact ⟨r, hr, hmal "bad setup!" Error.Base64Decode rfl rfl⟩
  · exact (swap_bundle_optional_slots b64Model bincModel
      (SwapResponse.mk none "bad swap!" none)).1 Error.Base64Decode rfl

theorem mapExcept_length {α β ε : Type} (f : α → Except ε β) :
    ∀ (l : List α) (bs : List β), mapExcept f l = Except.ok bs →
      bs.length = l.length := by
  intro l
  induction l with
  | nil =>
      intro bs h
      simp only [mapExcept] at h
      cases h
      rfl
  | cons a rest ih =>
      intro bs h
      simp only [mapExcept] at h
      cases hf : f a with
      | error e => rw [hf] at h; cases h
      | ok b =>
          rw [hf] at h
          cases hrest : mapExcept f rest with
          | error e => rw [hrest] at h; cases h
          | ok bs' =>
              rw [hrest] at h
              cases h
              simp [ih bs' hrest]

theorem convAccounts_err (parsePk : String → Option String) :
    ∀ (l : List JupiterAccount), (∃ a ∈ l, parsePk a.pubkey = none) →
      mapExcept (convAccount parsePk) l = Except.error Error.ParsePubkey := by
  intro l
  induction l with
  | nil =>
      intro h
      rcases h with ⟨a, ha, _⟩
      cases ha
  | cons a rest ih =>
      intro h
      simp only [mapExcept]
      cases hp : parsePk a.pubkey with
      | none => simp [convAccount, hp]
      | some pk =>
          have hrest : ∃ b ∈ rest, parsePk b.pubkey = none := by
            rcases h with ⟨b, hb, hbn⟩
            rcases List.mem_cons.mp hb with h1 | h1
            · subst h1; rw [hp] at hbn; cases hbn
            · exact ⟨b, h1, hbn⟩
          simp [convAccount, hp, ih hrest]

theorem convAccounts_ok (parsePk : String → Option String) :
    ∀ (l : List JupiterAccount), (∀ a ∈ l, (parsePk a.pubkey).isSome) →
      mapExcept (convAccount parsePk) l = Except.ok (l.map (fun a =>
        AccountMeta.mk ((parsePk a.pubkey).getD "") a.is_signer a.is_writable)) := by
  intro l
  induction l with
  | nil => intro _; rfl
  | cons a rest ih =>
      intro h
      have ha := h a (List.mem_cons_self a rest)
      rcases Option.isSome_iff_exists.mp ha with ⟨pk, hpk⟩
      have hrest := ih (fun b hb => h b (List.mem_cons_of_mem a hb))
      simp [mapExcept, convAccount, hpk, hrest]

/-- C9: instruction conversion fails with the address-parse error when the
program address or any account address is invalid, fails with the
base64-decode error when the addresses are valid but the payload is not
valid base64, and otherwise succeeds with the account list of the descriptor
preserved in length and order, signer and writable flags copied verbatim,
and data equal to the decoded payload. -/
theorem into_instruction_spec (parsePk : String → Option String)
    (b64dec : String → Option (List Nat)) (ji : JupiterInstruction) :
    (parsePk ji.program_id = none →
      into_instruction parsePk b64dec ji = Except.error Error.ParsePubkey) ∧
    (∀ pid, parsePk ji.program_id = some pid →
      (∃ a ∈ ji.accounts, parsePk a.pubkey = none) →
      into_instruction parsePk b64dec ji = Except.error Error.ParsePubkey) ∧
    (∀ pid, parsePk ji.program_id = some pid →
      (∀ a ∈ ji.accounts, (parsePk a.pubkey).isSome) →
      b64dec ji.data = none →
      into_instruction parsePk b64dec ji = Except.error Error.Base64Decode) ∧
    (∀ pid bytes, parsePk ji.program_id = some pid →
      (∀ a ∈ ji.accounts, (parsePk a.pubkey).isSome) →
      b64dec ji.data = some bytes →
      into_instruction parsePk b64dec ji = Except.ok (Instruction.mk pid
        (ji.accounts.map (fun a =>
          AccountMeta.mk ((parsePk a.pubkey).getD "") a.is_signer a.is_writable))
        bytes)) ∧
    (∀ i, into_instruction parsePk b64dec ji = Except.ok i →
      i.accounts.length = ji.accounts.length) := by
  refine ⟨?_, ?_, ?_, ?_, ?_⟩
  · intro h
    simp [into_instruction, h]
  · intro pid hpid hacc
    simp [into_instruction, hpid, convAccounts_err parsePk ji.accounts hacc]
  · intro pid hpid hacc hdata
    simp [into_instruction, hpid, convAccounts_ok parsePk ji.accounts hacc, hdata]
  · intro pid bytes hpid hacc hdata
    simp [into_instruction, hpid, convAccounts_ok parsePk ji.accounts hacc, hdata]
  · intro i hi
    simp only [into_instruction] at hi
    cases hpid : parsePk ji.program_id with
    | none => rw [hpid] at hi; cases hi
    | some pid =>
        rw [hpid] at hi
        cases hm : mapExcept (convAccount parsePk) ji.accounts with
        | error e => rw [hm] at hi; cases hi
        | ok accs =>
            rw [hm] at hi
            cases hd : b64dec ji.data with
            | none => rw [hd] at hi; cases hi
            | some data =>
                rw [hd] at hi
                cases hi
                exact mapExcept_length (convAccount parsePk) ji.accounts accs hm

theorem into_instruction_spec_witness :
    into_instruction pkModel b64Model
        (JupiterInstruction.mk "Prog1"
          [JupiterAccount.mk "Acct1" true false, JupiterAccount.mk "Acct2" false true]
          "QUJD") =
      Except.ok (Instruction.mk "Prog1"
        [AccountMeta.mk "Acct1" true false, AccountMeta.mk "Acct2" false true]
        [81, 85, 74, 68]) ∧
    into_instruction pkModel b64Model
        (JupiterInstruction.mk "not a pubkey!" [] "QUJD") =
      Except.error Error.ParsePubkey := by
  constructor
  · have h := (into_instruction_spec pkModel b64Model
      (JupiterInstruction.mk "Prog1"
        [JupiterAccount.mk "Acct1" true false, JupiterAccount.mk "Acct2" false true]
        "QUJD")).2.2.2.1 "Prog1" [81, 85, 74, 68] rfl (by decide) rfl
    simpa using h
  · exact (into_instruction_spec pkModel b64Model
      (JupiterInstruction.mk "not a pubkey!" [] "QUJD")).1 rfl

theorem resolveKeypair_json_fail (jsonParseBytes base58decode : String → Option (List Nat))
    (keypairFromBytes : List Nat → Option Keypair) (freshKeypair : Keypair)
    (s : String) (hb : startsWithBracket s = true) (hj : jsonParseBytes s = none) :
    resolveKeypair jsonParseBytes base58decode keypairFromBytes freshKeypair
      (some s) = Except.error KeyError.JsonParse := by
  simp [resolveKeypair, hb, hj]

theorem resolveKeypair_json_ok (jsonParseBytes base58decode : String → Option (List Nat))
    (keypairFromBytes : List Nat → Option Keypair) (freshKeypair : Keypair)
    (s : String) (bs : List Nat) (hb : startsWithBracket s = true)
    (hj : jsonParseBytes s = some bs) :
    resolveKeypair jsonParseBytes base58decode keypairFromBytes freshKeypair
      (some s) =
      match keypairFromBytes bs with
      | none => Except.error KeyError.InvalidKey
      | some kp => Except.ok (ResolvedKey.mk kp false) := by
  simp [resolveKeypair, hb, hj]

theorem resolveKeypair_b58_fail (jsonParseBytes base58decode : String → Option (List Nat))
    (keypairFromBytes : List Nat → Option Keypair) (freshKeypair : Keypair)
    (s : String) (hb : startsWithBracket s = false) (h58 : base58decode s.trim = none) :
    resolveKeypair jsonParseBytes base58decode keypairFromBytes freshKeypair
      (some s) = Except.error KeyError.Base58 := by
  simp [resolveKeypair, hb, h58]

theorem resolveKeypair_b58_ok (jsonParseBytes base58decode : String → Option (List Nat))
    (keypairFromBytes : List Nat → Option Keypair) (freshKeypair : Keypair)
    (s : String) (bs : List Nat) (hb : startsWithBracket s = false)
    (h58 : base58decode s.trim = some bs) :
    resolveKeypair jsonParseBytes base58decode keypairFromBytes freshKeypair
      (some s) =
      match keypairFromBytes bs with
      | none => Except.error KeyError.InvalidKey
      | some kp => Except.ok (ResolvedKey.mk kp false) := by
  simp [resolveKeypair, hb, h58]

/-- C4: with a configured key value, a JSON byte-array parse is attempted
exactly when the value starts with a bracket and a base58 decode of the
trimmed value otherwise; either decode failure (and an invalid key-byte
vector) is a fatal error and never falls back to an ephemeral key; with no
configured value, resolution succeeds with a fresh ephemeral keypair (the
warning path). -/
theorem resolveKeypair_spec (jsonParseBytes base58decode : String → Option (List Nat))
    (keypairFromBytes : List Nat → Option Keypair) (freshKeypair : Keypair) :
    (∀ s, startsWithBracket s = true → jsonParseBytes s = none →
      resolveKeypair jsonParseBytes base58decode keypairFromBytes freshKeypair
        (some s) = Except.error KeyError.JsonParse) ∧
    (∀ s bs, startsWithBracket s = true → jsonParseBytes s = some bs →
      resolveKeypair jsonParseBytes base58decode keypairFromBytes freshKeypair
        (some s) =
        match keypairFromBytes bs with
        | none => Except.error KeyError.InvalidKey
        | some kp => Except.ok (ResolvedKey.mk kp false)) ∧
    (∀ s, startsWithBracket s = false → base58decode s.trim = none →
      resolveKeypair jsonParseBytes base58decode keypairFromBytes freshKeypair
        (some s) = Except.error KeyError.Base58) ∧
    (∀ s bs, startsWithBracket s = false → base58decode s.trim = some bs →
      resolveKeypair jsonParseBytes base58decode keypairFromBytes freshKeypair
        (some s) =
        match keypairFromBytes bs with
        | none => Except.error KeyError.InvalidKey
        | some kp => Except.ok (ResolvedKey.mk kp false)) ∧
    (resolveKeypair jsonParseBytes base58decode keypairFromBytes freshKeypair
      none = Except.ok (ResolvedKey.mk freshKeypair true)) ∧
    (∀ s r, resolveKeypair jsonParseBytes base58decode keypairFromBytes
        freshKeypair (some s) = Except.ok r → r.ephemeral = false) := by
  refine ⟨resolveKeypair_json_fail _ _ _ _,
    resolveKeypair_json_ok _ _ _ _,
    resolveKeypair_b58_fail _ _ _ _,
    resolveKeypair_b58_ok _ _ _ _, rfl, ?_⟩
  intro s r h
  cases hb : startsWithBracket s with
  | true =>
      cases hj : jsonParseBytes s with
      | none =>
          rw [resolveKeypair_json_fail jsonParseBytes base58decode
            keypairFromBytes freshKeypair s hb hj] at h
          cases h
      | some bs =>
          rw [resolveKeypair_json_ok jsonParseBytes base58decode
            keypairFromBytes freshKeypair s bs hb hj] at h
          cases hk : keypairFromBytes bs with
          | none => rw [hk] at h; cases h
          | some kp =>
              rw [hk] at h
              cases h
              rfl
  | false =>
      cases h58 : base58decode s.trim with
      | none =>
          rw [resolveKeypair_b58_fail jsonParseBytes base58decode
            keypairFromBytes freshKeypair s hb h58] at h
          cases h
      | some bs =>
          rw [resolveKeypair_b58_ok jsonParseBytes base58decode
            keypairFromBytes freshKeypair s bs hb h58] at h
          cases hk : keypairFromBytes bs with
          | none => rw [hk] at h; cases h
          | some kp =>
              rw [hk] at h
              cases h
              rfl

theorem resolveKeypair_spec_witness :
    startsWithBracket "[1,2,3,oops" = true ∧
    resolveKeypair (fun _ => none) (fun _ => some [9])
        (fun _ => some (Keypair.mk [9])) (Keypair.mk [0]) (some "[1,2,3,oops") =
      Except.error KeyError.JsonParse ∧
    resolveKeypair (fun _ => none) (fun _ => some [9])
        (fun _ => some (Keypair.mk [9])) (Keypair.mk [0]) none =
      Except.ok (ResolvedKey.mk (Keypair.mk [0]) true) := by
  refine ⟨rfl, ?_, ?_⟩
  · exact (resolveKeypair_spec (fun _ => none) (fun _ => some [9])
      (fun _ => some (Keypair.mk [9])) (Keypair.mk [0])).1 "[1,2,3,oops" rfl rfl
  · exact (resolveKeypair_spec (fun _ => none) (fun _ => some [9])
      (fun _ => some (Keypair.mk [9])) (Keypair.mk [0])).2.2.2.2.1

/-- C5 counterexample: the response carries one compute-budget instruction,
yet the assembled list contains only the setup and swap instructions — the
compute-budget instruction is dropped (lib.rs line 160, "without compute
budget instruction"), so the assembled order is not compute-budget first. -/
theorem assemble_drops_compute_budget :
    assembleInstructions pkModel b64Model respWithComputeBudget =
      Except.ok [Instruction.mk "Setup1111" [] [66, 66, 66, 66],
        Instruction.mk "Swap11111" [] [67, 67, 67, 67]] ∧
    into_instruction pkModel b64Model (JupiterInstruction.mk "Budget111" [] "AAAA") =
      Except.ok (Instruction.mk "Budget111" [] [65, 65, 65, 65]) ∧
    Instruction.mk "Budget111" [] [65, 65, 65, 65] ∉
      [Instruction.mk "Setup1111" [] [66, 66, 66, 66],
        Instruction.mk "Swap11111" [] [67, 67, 67, 67]] := by
  exact ⟨rfl, rfl, by decide⟩

theorem mapExcept_get {α β ε : Type} (f : α → Except ε β) :
    ∀ (l : List α) (bs : List β), mapExcept f l = Except.ok bs →
      ∀ (i : Nat) (hi : i < l.length) (hb : i < bs.length),
        f (l.get ⟨i, hi⟩) = Except.ok (bs.get ⟨i, hb⟩) := by
  intro l
  induction l with
  | nil =>
      intro bs _ i hi _
      exact absurd hi (by simp)
  | cons a rest ih =>
      intro bs h i hi hb
      simp only [mapExcept] at h
      cases hf : f a with
      | error e => rw [hf] at h; cases h
      | ok b =>
          rw [hf] at h
          cases hrest : mapExcept f rest with
          | error e => rw [hrest] at h; cases h
          | ok bs' =>
              rw [hrest] at h
              cases h
              cases i with
              | zero => exact hf
              | succ i' =>
                  exact ih bs' hrest i' (Nat.lt_of_succ_lt_succ hi) (Nat.lt_of_succ_lt_succ hb)

theorem mapExcept_wrapped (parsePk : String → Option String)
    (b64dec : String → Option (List Nat)) (msg : String) :
    ∀ (l : List JupiterInstruction) (bs : List Instruction),
      mapExcept (into_instruction parsePk b64dec) l = Except.ok bs →
      mapExcept (fun si =>
        match into_instruction parsePk b64dec si with
        | Except.error e => Except.error (msg ++ errorMessage e)
        | Except.ok i => Except.ok i) l = Except.ok bs := by
  intro l
  induction l with
  | nil =>
      intro bs h
      simp only [mapExcept] at h ⊢
      cases h
      rfl
  | cons a rest ih =>
      intro bs h
      simp only [mapExcept] at h ⊢
      cases hf : into_instruction parsePk b64dec a with
      | error e => rw [hf] at h; cases h
      | ok b =>
          rw [hf] at h
          cases hrest : mapExcept (into_instruction parsePk b64dec) rest with
          | error e => rw [hrest] at h; cases h
          | ok bs' =>
              rw [hrest] at h
              cases h
              simp [ih bs' hrest]

/-- C5 (amended): a successful assembly yields exactly the converted setup
instructions in source order, then the single swap instruction, then the
cleanup instruction when present; the response's compute-budget (and
token-ledger and other) instructions are not included in the assembled
list. -/
theorem assembleInstructions_order (parsePk : String → Option String)
    (b64dec : String → Option (List Nat)) (resp : SwapInstructions)
    (setup : List Instruction) (swapI : Instruction)
    (hsetup : mapExcept (into_instruction parsePk b64dec) resp.setup_instructions =
      Except.ok setup)
    (hswap : into_instruction parsePk b64dec resp.swap_instruction = Except.ok swapI) :
    (resp.cleanup_instruction = none →
      assembleInstructions parsePk b64dec resp = Except.ok (setup ++ [swapI])) ∧
    (∀ ci cleanupI, resp.cleanup_instruction = some ci →
      into_instruction parsePk b64dec ci = Except.ok cleanupI →
      assembleInstructions parsePk b64dec resp =
        Except.ok (setup ++ [swapI] ++ [cleanupI])) ∧
    setup.length = resp.setup_instructions.length ∧
    (∀ (i : Nat) (hi : i < resp.setup_instructions.length) (hb : i < setup.length),
      into_instruction parsePk b64dec (resp.setup_instructions.get ⟨i, hi⟩) =
        Except.ok (setup.get ⟨i, hb⟩)) := by
  have hw := mapExcept_wrapped parsePk b64dec "Failed to parse setup instruction: "
    resp.setup_instructions setup hsetup
  refine ⟨?_, ?_, ?_, ?_⟩
  · intro hc
    simp [assembleInstructions, hw, hswap, hc]
  · intro ci cleanupI hc hci
    simp [assembleInstructions, hw, hswap, hc, hci]
  · exact mapExcept_length _ _ _ hsetup
  · exact mapExcept_get _ _ _ hsetup

theorem assembleInstructions_order_witness :
    mapExcept (into_instruction pkModel b64Model)
        respWithComputeBudget.setup_instructions =
      Except.ok [Instruction.mk "Setup1111" [] [66, 66, 66, 66]] ∧
    assembleInstructions pkModel b64Model respWithComputeBudget =
      Except.ok ([Instruction.mk "Setup1111" [] [66, 66, 66, 66]] ++
        [Instruction.mk "Swap11111" [] [67, 67, 67, 67]]) := by
  refine ⟨rfl, ?_⟩
  exact (assembleInstructions_order pkModel b64Model respWithComputeBudget
    [Instruction.mk "Setup1111" [] [66, 66, 66, 66]]
    (Instruction.mk "Swap11111" [] [67, 67, 67, 67]) rfl rfl).1 rfl

/-- C6 counterexample: when the quote fetch yields an error, the pipeline
still builds a swap request, from `Quote::default()`, whose route plan is the
empty list — contradicting the claim that no swap request is ever built from
a quote with an empty route plan. -/
theorem swap_request_from_empty_route_plan :
    (pipelineSwapRequest
        (Except.error (Error.JupiterApi "insufficient liquidity")) "ExactIn"
        "UserPk" (SwapConfig.mk (some false) none none)).quote_response.route_plan =
      [] := by
  rfl

/-- C6 (amended): the route plan of the quote placed in the outbound swap
request equals the fetched quote's route plan when the fetch succeeds, and is
the empty route plan of `Quote::default()` when the fetch fails; the request
is built unconditionally, with no non-emptiness validation. -/
theorem pipeline_route_plan (from_result : Except Error Quote)
    (mode pk : String) (cfg : SwapConfig) :
    (pipelineSwapRequest from_result mode pk cfg).quote_response.route_plan =
      match from_result with
      | Except.ok q => q.route_plan
      | Except.error _ => [] := by
  cases from_result <;> rfl

theorem pipeline_route_plan_witness :
    (pipelineSwapRequest (Except.error Error.SerdeJson) "ExactIn" "Pk"
        (SwapConfig.mk none none none)).quote_response.route_plan = [] := by
  exact pipeline_route_plan (Except.error Error.SerdeJson) "ExactIn" "Pk"
    (SwapConfig.mk none none none)

/-- C2: in the simulate-then-send submission path (modelled from the spec;
under `src/` the pipeline delegates submission to the external managed
helper), a non-null simulation error transitions directly to Rejected with
no submit call in the trace, and a submit call only ever happens after a
null-error simulation. -/
theorem submission_gate (simulateTx : Tx → Option String)
    (sendTx : Tx → Except String String) (tx : Tx) :
    (∀ err, simulateTx tx = some err →
      runSubmission simulateTx sendTx tx =
        (SubmissionState.Rejected err, [SubmissionEvent.simulate])) ∧
    (SubmissionEvent.submit ∈ (runSubmission simulateTx sendTx tx).2 →
      simulateTx tx = none) ∧
    (∀ err, simulateTx tx = some err →
      SubmissionEvent.submit ∉ (runSubmission simulateTx sendTx tx).2) := by
  refine ⟨?_, ?_, ?_⟩
  · intro err h
    simp [runSubmission, h]
  · intro h
    cases hs : simulateTx tx with
    | none => rfl
    | some e =>
        rw [show runSubmission simulateTx sendTx tx =
          (SubmissionState.Rejected e, [SubmissionEvent.simulate]) by
            simp [runSubmission, hs]] at h
        simp at h
  · intro err h hmem
    rw [show runSubmission simulateTx sendTx tx =
      (SubmissionState.Rejected err, [SubmissionEvent.simulate]) by
        simp [runSubmission, h]] at hmem
    simp at hmem

theorem submission_gate_witness :
    runSubmission (fun _ => some "sim failed") (fun _ => Except.ok "SIG") [1, 2] =
      (SubmissionState.Rejected "sim failed", [SubmissionEvent.simulate]) ∧
    SubmissionEvent.submit ∉
      (runSubmission (fun _ => some "sim failed") (fun _ => Except.ok "SIG") [1, 2]).2 := by
  exact ⟨(submission_gate (fun _ => some "sim failed") (fun _ => Except.ok "SIG")
      [1, 2]).1 "sim failed" rfl,
    (submission_gate (fun _ => some "sim failed") (fun _ => Except.ok "SIG")
      [1, 2]).2.2 "sim failed" rfl⟩

/-- C8 counterexample: a malformed input mint string makes the entry point
panic (`Pubkey::try_from(...).unwrap()`, lib.rs line 61), aborting instead
of returning a success string or a descriptive error. -/
theorem quick_swap_panics_on_bad_mint :
    quick_swap extModel envModel "GoodMint1" "bad mint!" 1000 = Outcome.panic := by
  rfl

/-- C8 (amended): the entry point panics, rather than returning, on mint
strings that fail pubkey parsing, on quote-fetch transport or body-parse
failures, on reqwest or helius client construction failure, and on malformed
transaction config variables; when none of those occur, every remaining
failure is returned to the caller as a descriptive error string and the
result is a returned value, never an abort. -/
theorem quick_swap_total_when_boundaries_ok (ext : ExternalFns)
    (env : PipelineEnv) (token_to token_from pf pt : String) (amount : Nat)
    (j : Json) (hf : ext.parsePk token_from = some pf)
    (ht : ext.parsePk token_to = some pt)
    (hclient : env.clientBuildOk = true) (hq : env.quoteHttpJson = some j)
    (hh : env.heliusNewOk = true) (hc : configPanics env = false) :
    quick_swap ext env token_to token_from amount ≠ Outcome.panic := by
  intro hcontra
  simp only [quick_swap, hf, ht, do_quick_swap, hclient, hq, hh, hc,
    Bool.not_true, Bool.false_eq_true, if_false] at hcontra
  split at hcontra
  · cases hcontra
  · split at hcontra
    · cases hcontra
    · split at hcontra
      · cases hcontra
      · split at hcontra
        · cases hcontra
        · split at hcontra
          · cases hcontra
          · cases hcontra

theorem quick_swap_total_when_boundaries_ok_witness :
    extModel.parsePk "GoodMint2" = some "GoodMint2" ∧
    configPanics envModel = false ∧
    quick_swap extModel envModel "GoodMint1" "GoodMint2" 1000 ≠ Outcome.panic := by
  refine ⟨rfl, rfl, ?_⟩
  exact quick_swap_total_when_boundaries_ok extModel envModel "GoodMint1"
    "GoodMint2" "GoodMint2" "GoodMint1" 1000
    (Json.obj [("error", Json.str "no route")]) rfl rfl rfl rfl rfl rfl

end JupSwap
